import Mathlib

/-!
Verification of the call-trace node decode/export engine
(`evm/src/trace/node.rs`) against its specification.

The trace data model (`CallTrace`, `RawOrDecoded*`, steps, logs) lives in the
crate's `trace` module; it is modelled here following the spec's data-model
section.  External collaborators (the generic ABI input/output decoders, the
specialized cheatcode-input decoder, the revert-reason decoder and the token
labeler) are modelled as abstract operations bundled in `AbiOps`: each returns
`Option`, where `none` is a decode failure.  A Rust panic (`expect`, index out
of bounds) is modelled by `decode_function` returning `none`; normal
termination returns `some` of the updated node.
-/

namespace FoundryTrace

/-- Byte strings are lists of naturals; each entry stands for one byte
(reduced mod 256 where its numeric value matters). -/
abbrev Bytes := List Nat

/-- Modelled from the spec: a 160-bit account address, as a natural number. -/
abbrev Address := Nat

/-- Modelled from the spec: a 256-bit machine word, as a natural number. -/
abbrev U256 := Nat

/-- Address-to-label map used by the token labeler, as an association list. -/
abbrev Labels := List (Address × String)

/-- Modelled from the spec: the error-definition set (error ABI) is opaque to
the node logic, which only forwards it to the cheat and revert decoders. -/
abbrev Abi := List String

/-- Width of a function selector in bytes (`foundry_common::SELECTOR_LEN`). -/
def SELECTOR_LEN : Nat := 4

/-- The designated virtual cheat-interface address
(`crate::executor::CHEATCODE_ADDRESS`). -/
def CHEATCODE_ADDRESS : Address := 0x7109709ECfa91a80626fF3989D68f67F5b1DD12D

/-- Modelled from the spec: the closed set of call kinds. -/
inductive CallKind where
  | Call
  | StaticCall
  | CallCode
  | DelegateCall
  | Create
  | Create2
deriving DecidableEq, Repr

set_option linter.dupNamespace false

/-- Modelled from the spec: the VM status / return code (`revm::Return`);
only the variants the node logic distinguishes are listed, plus generic
success and failure codes. -/
inductive Return where
  | Continue
  | Stop
  | Return
  | SelfDestruct
  | Revert
  | OutOfGas
deriving DecidableEq, Repr

/-- Modelled from the spec: call data, either raw bytes or a decoded entry of
function name, canonical signature, and labeled argument strings. -/
inductive RawOrDecodedCall where
  | Raw (bytes : Bytes)
  | Decoded (name : String) (signature : String) (args : List String)
deriving DecidableEq, Repr

/-- Modelled from the spec: return data, either raw bytes or one formatted
string. -/
inductive RawOrDecodedReturnData where
  | Raw (bytes : Bytes)
  | Decoded (value : String)
deriving DecidableEq, Repr

/-- Modelled from the spec: a log entry, raw (topics plus data) or decoded
(event name plus named parameter strings). -/
inductive RawOrDecodedLog where
  | Raw (topics : List U256) (data : Bytes)
  | Decoded (name : String) (params : List (String × String))
deriving DecidableEq, Repr

/-- Modelled from the spec: one element of a node's ordering sequence, tagged
as a log index or a child-call index. -/
inductive LogCallOrder where
  | Log (idx : Nat)
  | Call (idx : Nat)
deriving DecidableEq, Repr

/-- Modelled from the spec: the per-key record in a step's touched-storage
state; the exporter keeps only the resulting `storage` value and drops the
other per-key metadata. -/
structure StorageSlot where
  storage : U256
  metadata : Nat
deriving DecidableEq, Repr

/-- Modelled from the spec: one recorded execution step — program counter,
opcode mnemonic, stack snapshot, memory snapshot, and touched-storage state. -/
structure CallTraceStep where
  pc : Nat
  op : String
  stack : List U256
  memory : Bytes
  state : List (U256 × StorageSlot)
deriving DecidableEq, Repr

/-- Modelled from the spec: the call trace record held by a node. -/
structure CallTrace where
  depth : Nat
  success : Bool
  caller : Address
  address : Address
  kind : CallKind
  value : U256
  data : RawOrDecodedCall
  output : RawOrDecodedReturnData
  gas_cost : Nat
  status : Return
  label : Option String
  steps : List CallTraceStep
deriving DecidableEq, Repr

/-- A node in the arena (`CallTraceNode`). -/
structure CallTraceNode where
  parent : Option Nat
  children : List Nat
  idx : Nat
  trace : CallTrace
  logs : List RawOrDecodedLog
  ordering : List LogCallOrder
deriving DecidableEq, Repr

/-- An ABI function definition (`ethers::abi::Function`); the node logic uses
only its name and canonical signature, and hands the whole value to the
decoders. -/
structure Function where
  name : String
  signature : String
deriving DecidableEq, Repr

/-- Modelled from the spec: the external decode collaborators, abstracted as
operations.  `decode_input` / `decode_output` are the generic positional ABI
decoders of a function's input/output types (`none` = ABI mismatch or
malformed byte length); `decode_cheatcode_inputs` is the specialized
cheat-input decoder (`none` = no specialized decode); `decode_revert`
interprets bytes as a standard revert/error payload using the error ABI and
the call's status (`none` = not a recognizable error payload); `label` is the
token labeler rendering one decoded token as text with address labels
substituted. -/
structure AbiOps where
  decode_input : Function → Bytes → Option (List String)
  decode_output : Function → Bytes → Option (List String)
  decode_cheatcode_inputs : Function → Bytes → Abi → Option (List String)
  decode_revert : Bytes → Abi → Return → Option String
  label : String → Labels → String

/-- Modelled from the spec: the raw byte form of call data; the decoded
variant carries no raw bytes. -/
def RawOrDecodedCall.to_raw : RawOrDecodedCall → Bytes
  | RawOrDecodedCall.Raw bytes => bytes
  | RawOrDecodedCall.Decoded _ _ _ => []

/-- Modelled from the spec: the raw byte form of return data; for the decoded
variant, the bytes of its formatted string. -/
def RawOrDecodedReturnData.to_raw : RawOrDecodedReturnData → Bytes
  | RawOrDecodedReturnData.Raw bytes => bytes
  | RawOrDecodedReturnData.Decoded s => s.toUTF8.toList.map (fun b => b.toNat)

/-- Lowercase hex encoding of a byte string (`hex::encode`). -/
def hexEncode (bytes : Bytes) : String :=
  String.mk (bytes.foldr
    (fun b acc => Nat.digitChar (b % 256 / 16) :: Nat.digitChar (b % 16) :: acc) [])

/-- Wraps a decoded error reason in double quotes, as the format string
in `decode_function` does. -/
def quoteString (s : String) : String := "\"" ++ s ++ "\""

/-- Returns the kind of call the trace belongs to. -/
def CallTraceNode.kind (self : CallTraceNode) : CallKind :=
  self.trace.kind

/-- Returns the status of the call. -/
def CallTraceNode.status (self : CallTraceNode) : Return :=
  self.trace.status

/-- Parity call type tag (`ethers::types::CallType`). -/
inductive CallType where
  | None
  | Call
  | CallCode
  | DelegateCall
  | StaticCall
deriving DecidableEq, Repr

/-- Modelled from the spec: the call-type tag derived from a call kind
(`CallType::from(CallKind)`); the create kinds never reach this conversion in
the action projection. -/
def CallKind.toCallType : CallKind → CallType
  | CallKind.Call => CallType.Call
  | CallKind.StaticCall => CallType.StaticCall
  | CallKind.CallCode => CallType.CallCode
  | CallKind.DelegateCall => CallType.DelegateCall
  | CallKind.Create => CallType.None
  | CallKind.Create2 => CallType.None

/-- Parity call action (`ethers::types::Call`). -/
structure Call where
  «from» : Address
  «to» : Address
  value : U256
  gas : U256
  input : Bytes
  call_type : CallType
deriving DecidableEq, Repr

/-- Parity create action (`ethers::types::Create`). -/
structure Create where
  «from» : Address
  value : U256
  gas : U256
  init : Bytes
deriving DecidableEq, Repr

/-- Parity suicide action (`ethers::types::Suicide`). -/
structure Suicide where
  address : Address
  refund_address : Address
  balance : U256
deriving DecidableEq, Repr

/-- Parity action (`ethers::types::Action`). -/
inductive Action where
  | Call (call : Call)
  | Create (create : Create)
  | Suicide (suicide : Suicide)
deriving DecidableEq, Repr

/-- Parity call result (`ethers::types::CallResult`). -/
structure CallResult where
  gas_used : U256
  output : Bytes
deriving DecidableEq, Repr

/-- Parity create result (`ethers::types::CreateResult`). -/
structure CreateResult where
  gas_used : U256
  code : Bytes
  address : Address
deriving DecidableEq, Repr

/-- Parity result (`ethers::types::Res`): a call result, a create result, or
absent. -/
inductive Res where
  | Call (result : CallResult)
  | Create (result : CreateResult)
  | None
deriving DecidableEq, Repr

/-- The default value of an address (`Default::default()` on an address is
the zero address). -/
def defaultAddress : Address := 0

/-- Returns the `Res` for a parity trace (`CallTraceNode::parity_result`). -/
def parity_result (self : CallTraceNode) : Res :=
  match self.kind with
  | CallKind.Call | CallKind.StaticCall | CallKind.CallCode | CallKind.DelegateCall =>
    Res.Call { gas_used := self.trace.gas_cost, output := self.trace.output.to_raw }
  | CallKind.Create | CallKind.Create2 =>
    Res.Create { gas_used := self.trace.gas_cost, code := self.trace.output.to_raw,
                 address := self.trace.address }

/-- Returns the `Action` for a parity trace (`CallTraceNode::parity_action`). -/
def parity_action (self : CallTraceNode) : Action :=
  if self.status = Return.SelfDestruct then
    Action.Suicide { address := self.trace.address,
                     refund_address := defaultAddress,
                     balance := self.trace.value }
  else
    match self.kind with
    | CallKind.Call | CallKind.StaticCall | CallKind.CallCode | CallKind.DelegateCall =>
      Action.Call { «from» := self.trace.caller, «to» := self.trace.address,
                    value := self.trace.value, gas := self.trace.gas_cost,
                    input := self.trace.data.to_raw,
                    call_type := self.kind.toCallType }
    | CallKind.Create | CallKind.Create2 =>
      Action.Create { «from» := self.trace.caller, value := self.trace.value,
                      gas := self.trace.gas_cost, init := self.trace.data.to_raw }

/-- One per-step entry of the Geth-style trace (`ethers::types::StructLog`). -/
structure StructLog where
  depth : Nat
  error : Option String
  gas : Nat
  gas_cost : Nat
  memory : Option Bytes
  op : String
  pc : U256
  refund_counter : Option Nat
  stack : Option (List U256)
  storage : List (U256 × U256)
deriving DecidableEq, Repr

/-- The Geth-style trace object (`ethers::types::GethTrace`). -/
structure GethTrace where
  failed : Bool
  gas : Nat
  return_value : Bytes
  struct_logs : List StructLog
deriving DecidableEq, Repr

/-- The Geth-style projection (`CallTraceNode::geth_trace`). -/
def geth_trace (self : CallTraceNode) : GethTrace :=
  { failed := !self.trace.success,
    gas := 0,
    return_value := self.trace.output.to_raw,
    struct_logs := self.trace.steps.map (fun step =>
      { depth := self.trace.depth,
        error := none,
        gas := 0,
        gas_cost := 0,
        memory := some step.memory,
        op := step.op,
        pc := step.pc,
        refund_counter := none,
        stack := some step.stack,
        storage := step.state.map (fun kv => (kv.1, kv.2.storage)) }) }

/-- The input-decoding step of `decode_function`, for raw call data `bytes`
of a call to `addr` with first candidate `func`: `some inputs` is the decoded
argument list, `none` models the panic of
`expect ("bad function input decode")` on the cheat path. -/
def decode_call_inputs (ops : AbiOps) (func : Function) (addr : Address)
    (bytes : Bytes) (labels : Labels) (errors : Abi) : Option (List String) :=
  if SELECTOR_LEN ≤ bytes.length then
    if addr = CHEATCODE_ADDRESS then
      match ops.decode_cheatcode_inputs func bytes errors with
      | some inputs => some inputs
      | none =>
        match ops.decode_input func (bytes.drop SELECTOR_LEN) with
        | some tokens => some (tokens.map (fun t => ops.label t labels))
        | none => none
    else
      match ops.decode_input func (bytes.drop SELECTOR_LEN) with
      | some tokens => some (tokens.map (fun t => ops.label t labels))
      | none => some []
  else
    some []

/-- The return-data step of `decode_function`: if the output is raw and the
call succeeded with non-empty output bytes, the first candidate whose output
decode succeeds is taken and, when its token list is non-empty, the output
becomes the comma-joined labeled tokens; otherwise (failed call or empty
output bytes) a revert decode is attempted, quoting the reason on success. -/
def decode_output_update (ops : AbiOps) (funcs : List Function)
    (trace : CallTrace) (labels : Labels) (errors : Abi) : CallTrace :=
  match trace.output with
  | RawOrDecodedReturnData.Raw obytes =>
    if !obytes.isEmpty && trace.success then
      match funcs.findSome? (fun func => ops.decode_output func obytes) with
      | some tokens =>
        if !tokens.isEmpty then
          { trace with output := (RawOrDecodedReturnData.Decoded
              (String.intercalate ", " (tokens.map (fun t => ops.label t labels)))) }
        else
          trace
      | none => trace
    else
      match ops.decode_revert obytes errors trace.status with
      | some decoded_error =>
        { trace with output := RawOrDecodedReturnData.Decoded (quoteString decoded_error) }
      | none => trace
  | RawOrDecodedReturnData.Decoded _ => trace

/-- Decode a regular function (`CallTraceNode::decode_function`).  `none`
models a panic (empty candidate list, or a failed generic fallback decode on
the cheat path); `some` is the updated node on normal termination. -/
def decode_function (ops : AbiOps) (node : CallTraceNode) (funcs : List Function)
    (labels : Labels) (errors : Abi) : Option CallTraceNode :=
  match funcs with
  | [] => none
  | func :: rest =>
    match node.trace.data with
    | RawOrDecodedCall.Raw bytes =>
      match decode_call_inputs ops func node.trace.address bytes labels errors with
      | none => none
      | some inputs =>
        some { node with trace :=
          (decode_output_update ops (func :: rest)
            { node.trace with
              data := RawOrDecodedCall.Decoded func.name func.signature inputs }
            labels errors) }
    | RawOrDecodedCall.Decoded _ _ _ => some node

/-- Decode the node's tracing data for the given precompile function
(`CallTraceNode::decode_precompile`). -/
def decode_precompile (ops : AbiOps) (node : CallTraceNode)
    (precompile_fn : Function) (labels : Labels) : CallTraceNode :=
  match node.trace.data with
  | RawOrDecodedCall.Raw bytes =>
    let traceData := { node.trace with
      label := some "PRECOMPILE",
      data := RawOrDecodedCall.Decoded precompile_fn.name precompile_fn.signature
        (match ops.decode_input precompile_fn bytes with
         | some tokens => tokens.map (fun t => ops.label t labels)
         | none => [hexEncode bytes]) }
    let traceOut :=
      match traceData.output with
      | RawOrDecodedReturnData.Raw obytes =>
        { traceData with output := (RawOrDecodedReturnData.Decoded
            (match ops.decode_output precompile_fn obytes with
             | some tokens =>
               String.intercalate ", " (tokens.map (fun t => ops.label t labels))
             | none => hexEncode obytes)) }
      | RawOrDecodedReturnData.Decoded _ => traceData
    { node with trace := traceOut }
  | RawOrDecodedCall.Decoded _ _ _ => node

/-! Concrete fixtures used to evaluate the definitions at explicit inputs. -/

/-- A concrete candidate function. -/
def fnA : Function := { name := "transfer", signature := "transfer(address,uint256)" }

/-- A second concrete candidate function sharing the selector of `fnA`. -/
def fnB : Function := { name := "xfer", signature := "xfer(address,uint256)" }

/-- Decode operations where every decoder fails and the labeler is the
identity: a trace whose payloads match no known ABI. -/
def failingOps : AbiOps :=
  { decode_input := fun _ _ => none,
    decode_output := fun _ _ => none,
    decode_cheatcode_inputs := fun _ _ _ => none,
    decode_revert := fun _ _ _ => none,
    label := fun t _ => t }

/-- Decode operations where the first candidate's output decode yields an
empty tuple and any other candidate's yields one token. -/
def emptyThenNonemptyOps : AbiOps :=
  { decode_input := fun _ _ => none,
    decode_output := fun f _ => if f.name = "transfer" then some [] else some ["42"],
    decode_cheatcode_inputs := fun _ _ _ => none,
    decode_revert := fun _ _ _ => none,
    label := fun t _ => t }

/-- Decode operations where every output decode yields one token. -/
def nonemptyOutputOps : AbiOps :=
  { decode_input := fun _ _ => none,
    decode_output := fun _ _ => some ["7"],
    decode_cheatcode_inputs := fun _ _ _ => none,
    decode_revert := fun _ _ _ => none,
    label := fun t _ => t }

/-- Decode operations where only the revert decoder succeeds, with the
spec's scenario reason. -/
def revertOnlyOps : AbiOps :=
  { decode_input := fun _ _ => none,
    decode_output := fun _ _ => none,
    decode_cheatcode_inputs := fun _ _ _ => none,
    decode_revert := fun _ _ _ => some "Insufficient balance",
    label := fun t _ => t }

/-- A successful plain call with empty payloads. -/
def baseTrace : CallTrace :=
  { depth := 0, success := true, caller := 1, address := 2,
    kind := CallKind.Call, value := 0,
    data := RawOrDecodedCall.Raw [], output := RawOrDecodedReturnData.Raw [],
    gas_cost := 0, status := Return.Return, label := none, steps := [] }

/-- A root node holding `baseTrace`. -/
def baseNode : CallTraceNode :=
  { parent := none, children := [], idx := 0, trace := baseTrace,
    logs := [], ordering := [] }

/-- A call to the cheat-interface address whose payload is long enough to
carry a selector. -/
def cheatNode : CallTraceNode :=
  { baseNode with trace := { baseTrace with
      address := CHEATCODE_ADDRESS,
      data := RawOrDecodedCall.Raw [1, 2, 3, 4, 5] } }

/-- A node whose call data is already decoded. -/
def decodedNode : CallTraceNode :=
  { baseNode with trace := { baseTrace with
      data := RawOrDecodedCall.Decoded "transfer" "transfer(address,uint256)" ["0x01"] } }

/-- A successful call with raw, non-empty output bytes. -/
def successRawOutputNode : CallTraceNode :=
  { baseNode with trace := { baseTrace with
      output := RawOrDecodedReturnData.Raw [1] } }

/-- The node `decode_function` produces from `successRawOutputNode` under
`nonemptyOutputOps` with candidate `fnA`. -/
def c3ResNode : CallTraceNode :=
  { successRawOutputNode with trace := { successRawOutputNode.trace with
      data := RawOrDecodedCall.Decoded "transfer" "transfer(address,uint256)" [],
      output := RawOrDecodedReturnData.Decoded "7" } }

/-- A successful call with raw output bytes that no candidate decodes. -/
def successUndecodableOutputNode : CallTraceNode :=
  { baseNode with trace := { baseTrace with
      output := RawOrDecodedReturnData.Raw [9] } }

/-- A failed (reverted) call carrying a standard revert payload prefix. -/
def failedRevertNode : CallTraceNode :=
  { baseNode with trace := { baseTrace with
      success := false,
      status := Return.Revert,
      output := RawOrDecodedReturnData.Raw [8, 195, 121, 160] } }

/-- The node `decode_function` produces from `failedRevertNode` under
`revertOnlyOps` with candidate `fnA`. -/
def c4ResNode : CallTraceNode :=
  { failedRevertNode with trace := { failedRevertNode.trace with
      data := RawOrDecodedCall.Decoded "transfer" "transfer(address,uint256)" [],
      output := RawOrDecodedReturnData.Decoded (quoteString "Insufficient balance") } }

/-- A delegate call whose VM status is self-destruct. -/
def selfdestructNode : CallTraceNode :=
  { baseNode with trace := { baseTrace with
      status := Return.SelfDestruct,
      kind := CallKind.DelegateCall,
      address := 7,
      value := 5 } }

/-- A plain call whose VM status is self-destruct, with recorded gas cost and
raw output. -/
def selfdestructCallNode : CallTraceNode :=
  { baseNode with trace := { baseTrace with
      status := Return.SelfDestruct,
      kind := CallKind.Call,
      gas_cost := 3,
      output := RawOrDecodedReturnData.Raw [5] } }

/-- A call whose raw calldata is shorter than a selector. -/
def shortCalldataNode : CallTraceNode :=
  { baseNode with trace := { baseTrace with
      data := RawOrDecodedCall.Raw [170, 187] } }

/-- A precompile call whose raw input decodes against no input types. -/
def precompileInputNode : CallTraceNode :=
  { baseNode with trace := { baseTrace with
      data := RawOrDecodedCall.Raw [222, 173] } }

/-- A node with one recorded execution step and raw output. -/
def stepNode : CallTraceNode :=
  { baseNode with trace := { baseTrace with
      depth := 2,
      output := RawOrDecodedReturnData.Raw [7],
      steps := [{ pc := 3, op := "SLOAD", stack := [1, 2], memory := [0],
                  state := [(5, { storage := 9, metadata := 1 })] }] } }

/-- The node `decode_function` produces from `baseNode` under `failingOps`
with candidate `fnA`. -/
def frameResNode : CallTraceNode :=
  { baseNode with trace := { baseTrace with
      data := RawOrDecodedCall.Decoded "transfer" "transfer(address,uint256)" [] } }

/-! Helper lemmas shared by the claim theorems. -/

/-- The input-decoding step fails (models the panic) exactly on the cheat
path with both the specialized and the generic decode failing. -/
theorem decode_call_inputs_none_iff (ops : AbiOps) (func : Function)
    (addr : Address) (bytes : Bytes) (labels : Labels) (errors : Abi) :
    decode_call_inputs ops func addr bytes labels errors = none ↔
      (SELECTOR_LEN ≤ bytes.length ∧ addr = CHEATCODE_ADDRESS ∧
       ops.decode_cheatcode_inputs func bytes errors = none ∧
       ops.decode_input func (bytes.drop SELECTOR_LEN) = none) := by
  unfold decode_call_inputs
  split
  · split
    · cases h1 : ops.decode_cheatcode_inputs func bytes errors
      · cases h2 : ops.decode_input func (bytes.drop SELECTOR_LEN) <;> simp_all
      · simp_all
    · cases h2 : ops.decode_input func (bytes.drop SELECTOR_LEN) <;> simp_all
  · simp_all

/-- `decode_function` with a non-empty candidate list fails exactly when the
input-decoding step fails on the node's raw call data. -/
theorem decode_function_eq_none_iff (ops : AbiOps) (node : CallTraceNode)
    (func : Function) (rest : List Function) (labels : Labels) (errors : Abi) :
    decode_function ops node (func :: rest) labels errors = none ↔
      ∃ bytes, node.trace.data = RawOrDecodedCall.Raw bytes ∧
        decode_call_inputs ops func node.trace.address bytes labels errors = none := by
  cases hdata : node.trace.data with
  | Raw bytes =>
    cases hci : decode_call_inputs ops func node.trace.address bytes labels errors <;>
      simp [decode_function, hdata, hci]
  | Decoded n s a =>
    simp [decode_function, hdata]

/-- The return-data step changes nothing but the trace's output field. -/
theorem decode_output_update_output_only (ops : AbiOps) (funcs : List Function)
    (trace : CallTrace) (labels : Labels) (errors : Abi) :
    ∃ out, decode_output_update ops funcs trace labels errors =
      { trace with output := out } := by
  unfold decode_output_update
  split
  · split
    · split
      · split
        · exact ⟨_, rfl⟩
        · exact ⟨trace.output, rfl⟩
      · exact ⟨trace.output, rfl⟩
    · split
      · exact ⟨_, rfl⟩
      · exact ⟨trace.output, rfl⟩
  · exact ⟨trace.output, rfl⟩

/-- The return-data step leaves the call-data field unchanged. -/
theorem decode_output_update_data_eq (ops : AbiOps) (funcs : List Function)
    (trace : CallTrace) (labels : Labels) (errors : Abi) :
    (decode_output_update ops funcs trace labels errors).data = trace.data := by
  obtain ⟨out, heq⟩ := decode_output_update_output_only ops funcs trace labels errors
  rw [heq]

/-- CLAIM C2: `decode_function` on a node whose call data is already Decoded
leaves the node completely unchanged, for every operation set, candidate
list (non-empty, as the function's precondition requires), label map and
error ABI. -/
theorem decode_function_decoded_noop (ops : AbiOps) (node : CallTraceNode)
    (func : Function) (rest : List Function) (labels : Labels) (errors : Abi)
    (name signature : String) (args : List String)
    (h : node.trace.data = RawOrDecodedCall.Decoded name signature args) :
    decode_function ops node (func :: rest) labels errors = some node := by
  simp [decode_function, h]

/-- Witness for C2: a concrete already-decoded node is returned unchanged. -/
theorem decode_function_decoded_noop_witness :
    decodedNode.trace.data =
      RawOrDecodedCall.Decoded "transfer" "transfer(address,uint256)" ["0x01"] ∧
    decode_function failingOps decodedNode [fnA] [] [] = some decodedNode :=
  ⟨rfl, decode_function_decoded_noop failingOps decodedNode fnA [] [] []
    "transfer" "transfer(address,uint256)" ["0x01"] rfl⟩

/-- CLAIM C5: a node whose VM status is self-destruct always yields a Suicide
action under the Parity projection, regardless of its call kind, with
address = call target, balance = transferred value, and the refund address at
the type's default. -/
theorem parity_action_selfdestruct_suicide (node : CallTraceNode)
    (h : node.trace.status = Return.SelfDestruct) :
    parity_action node =
      Action.Suicide { address := node.trace.address,
                       refund_address := defaultAddress,
                       balance := node.trace.value } := by
  simp [parity_action, CallTraceNode.status, h]

/-- Witness for C5: a concrete self-destructed delegate call projects to the
expected Suicide action. -/
theorem parity_action_selfdestruct_suicide_witness :
    selfdestructNode.trace.status = Return.SelfDestruct ∧
    parity_action selfdestructNode =
      Action.Suicide { address := 7, refund_address := defaultAddress, balance := 5 } :=
  ⟨rfl, parity_action_selfdestruct_suicide selfdestructNode rfl⟩

/-- CLAIM C1 counterexample: on the cheat-interface path, a payload that
fails both the specialized cheat decode and the generic fallback decode makes
`decode_function` hard-fail (the `expect` panic, modelled as `none`), so the
operation does not always terminate normally. -/
theorem decode_function_cheat_fallback_failure :
    decode_function failingOps cheatNode [fnA] [] [] = none := by decide

/-- CLAIM C1 (amended): with a non-empty candidate list, `decode_function`
hard-fails exactly when the node's call data is raw with at least a
selector's worth of bytes, the target is the cheat-interface address, and
both the specialized cheat decode and the generic fallback decode of the
first candidate fail; in every other situation it terminates normally,
degrading failed decodes to an empty argument list, a raw fallback, or
untouched data. -/
theorem decode_function_hard_failure_characterization (ops : AbiOps)
    (node : CallTraceNode) (func : Function) (rest : List Function)
    (labels : Labels) (errors : Abi) :
    decode_function ops node (func :: rest) labels errors = none ↔
      ∃ bytes, node.trace.data = RawOrDecodedCall.Raw bytes ∧
        SELECTOR_LEN ≤ bytes.length ∧
        node.trace.address = CHEATCODE_ADDRESS ∧
        ops.decode_cheatcode_inputs func bytes errors = none ∧
        ops.decode_input func (bytes.drop SELECTOR_LEN) = none := by
  rw [decode_function_eq_none_iff]
  exact exists_congr fun bytes => and_congr_right fun _ =>
    decode_call_inputs_none_iff ops func node.trace.address bytes labels errors

/-- The return-data step on a successful call with non-empty raw output: the
first candidate whose output decode succeeds is taken, and the output is
replaced only when its token list is non-empty. -/
theorem decode_output_update_success_nonempty (ops : AbiOps)
    (funcs : List Function) (trace : CallTrace) (labels : Labels) (errors : Abi)
    (obytes : Bytes)
    (hout : trace.output = RawOrDecodedReturnData.Raw obytes)
    (hne : obytes.isEmpty = false)
    (hsucc : trace.success = true) :
    (decode_output_update ops funcs trace labels errors).output =
      (match funcs.findSome? (fun f => ops.decode_output f obytes) with
       | some tokens =>
         if tokens.isEmpty then RawOrDecodedReturnData.Raw obytes
         else
           RawOrDecodedReturnData.Decoded
             (String.intercalate ", " (tokens.map (fun t => ops.label t labels)))
       | none => RawOrDecodedReturnData.Raw obytes) := by
  unfold decode_output_update
  rw [hout]
  simp only [hne, hsucc, Bool.not_false, Bool.and_true, if_true]
  cases hfs : funcs.findSome? (fun f => ops.decode_output f obytes) with
  | none => simp [hout]
  | some tokens => cases hti : tokens.isEmpty <;> simp [hti, hout]

/-- CLAIM C3 counterexample: when the first candidate's output decode
succeeds with an empty tuple, a later candidate that decodes to a non-empty
token list is never used — the return data is left Raw instead of becoming
the later candidate's formatting. -/
theorem decode_function_empty_tuple_shadows_later_candidate :
    (decode_function emptyThenNonemptyOps successRawOutputNode [fnA, fnB] [] []).map
        (fun nd => nd.trace.output) = some (RawOrDecodedReturnData.Raw [1]) ∧
    emptyThenNonemptyOps.decode_output fnB [1] = some ["42"] ∧
    RawOrDecodedReturnData.Raw [1] ≠ RawOrDecodedReturnData.Decoded "42" := by decide

/-- CLAIM C3 (amended): on a node with raw call data and raw, non-empty
output of a successful call, `decode_function` takes the first candidate
whose output decode succeeds at all; it sets the return data to the
comma-joined label-substituted formatting of that candidate's tokens when
they are non-empty, and leaves the return data Raw when that first
successful decode is an empty tuple or when no candidate decodes. -/
theorem decode_function_output_first_successful_decode (ops : AbiOps)
    (node : CallTraceNode) (func : Function) (rest : List Function)
    (labels : Labels) (errors : Abi) (cbytes obytes : Bytes)
    (nodeRes : CallTraceNode)
    (hdata : node.trace.data = RawOrDecodedCall.Raw cbytes)
    (hout : node.trace.output = RawOrDecodedReturnData.Raw obytes)
    (hne : obytes.isEmpty = false)
    (hsucc : node.trace.success = true)
    (hres : decode_function ops node (func :: rest) labels errors = some nodeRes) :
    nodeRes.trace.output =
      (match (func :: rest).findSome? (fun f => ops.decode_output f obytes) with
       | some tokens =>
         if tokens.isEmpty then RawOrDecodedReturnData.Raw obytes
         else
           RawOrDecodedReturnData.Decoded
             (String.intercalate ", " (tokens.map (fun t => ops.label t labels)))
       | none => RawOrDecodedReturnData.Raw obytes) := by
  simp only [decode_function, hdata] at hres
  cases hci : decode_call_inputs ops func node.trace.address cbytes labels errors with
  | none => rw [hci] at hres; exact Option.noConfusion hres
  | some inputs =>
    rw [hci] at hres
    obtain rfl := Option.some.inj hres
    exact decode_output_update_success_nonempty ops (func :: rest)
      { node.trace with data := RawOrDecodedCall.Decoded func.name func.signature inputs }
      labels errors obytes hout hne hsucc

/-- Witness for C3 (amended): a successful call whose single candidate
decodes the output to one token gets the comma-joined formatting. -/
theorem decode_function_output_first_successful_decode_witness :
    c3ResNode.trace.output =
      (match [fnA].findSome? (fun f => nonemptyOutputOps.decode_output f [1]) with
       | some tokens =>
         if tokens.isEmpty then RawOrDecodedReturnData.Raw [1]
         else
           RawOrDecodedReturnData.Decoded
             (String.intercalate ", " (tokens.map (fun t => nonemptyOutputOps.label t [])))
       | none => RawOrDecodedReturnData.Raw [1]) :=
  decode_function_output_first_successful_decode nonemptyOutputOps
    successRawOutputNode fnA [] [] [] [] [1] c3ResNode rfl rfl rfl rfl (by decide)

/-- The return-data step when the output bytes are empty or the call failed:
a revert decode is attempted, quoting the reason on success and leaving the
output untouched on failure. -/
theorem decode_output_update_revert_branch (ops : AbiOps)
    (funcs : List Function) (trace : CallTrace) (labels : Labels) (errors : Abi)
    (obytes : Bytes)
    (hout : trace.output = RawOrDecodedReturnData.Raw obytes)
    (hcond : (!obytes.isEmpty && trace.success) = false) :
    (decode_output_update ops funcs trace labels errors).output =
      (match ops.decode_revert obytes errors trace.status with
       | some decoded_error =>
         RawOrDecodedReturnData.Decoded (quoteString decoded_error)
       | none => RawOrDecodedReturnData.Raw obytes) := by
  unfold decode_output_update
  rw [hout]
  simp only [hcond, Bool.false_eq_true, if_false]
  cases hr : ops.decode_revert obytes errors trace.status <;> simp [hr, hout]

/-- CLAIM C4 counterexample: on a successful call with non-empty output that
no candidate decodes, `decode_function` does not attempt the revert
interpretation even though it would succeed — the return data stays Raw
instead of becoming the quoted reason. -/
theorem decode_function_no_revert_try_on_successful_call :
    (decode_function revertOnlyOps successUndecodableOutputNode [fnA] [] []).map
        (fun nd => nd.trace.output) = some (RawOrDecodedReturnData.Raw [9]) ∧
    revertOnlyOps.decode_revert [9] [] successUndecodableOutputNode.trace.status =
      some "Insufficient balance" ∧
    RawOrDecodedReturnData.Raw [9] ≠
      RawOrDecodedReturnData.Decoded (quoteString "Insufficient balance") := by decide

/-- CLAIM C4 (amended): on a node with raw call data and raw output,
`decode_function` attempts the revert/error interpretation exactly when the
call failed or the output bytes are empty; on success the return data becomes
the quoted reason, on failure it stays Raw with the bytes untouched.  (When
the call succeeded with non-empty output and no candidate decoded, no revert
interpretation is attempted.) -/
theorem decode_function_revert_fallback_condition (ops : AbiOps)
    (node : CallTraceNode) (func : Function) (rest : List Function)
    (labels : Labels) (errors : Abi) (cbytes obytes : Bytes)
    (nodeRes : CallTraceNode)
    (hdata : node.trace.data = RawOrDecodedCall.Raw cbytes)
    (hout : node.trace.output = RawOrDecodedReturnData.Raw obytes)
    (hcond : obytes.isEmpty = true ∨ node.trace.success = false)
    (hres : decode_function ops node (func :: rest) labels errors = some nodeRes) :
    nodeRes.trace.output =
      (match ops.decode_revert obytes errors node.trace.status with
       | some decoded_error =>
         RawOrDecodedReturnData.Decoded (quoteString decoded_error)
       | none => RawOrDecodedReturnData.Raw obytes) := by
  simp only [decode_function, hdata] at hres
  cases hci : decode_call_inputs ops func node.trace.address cbytes labels errors with
  | none => rw [hci] at hres; exact Option.noConfusion hres
  | some inputs =>
    rw [hci] at hres
    obtain rfl := Option.some.inj hres
    refine decode_output_update_revert_branch ops (func :: rest)
      { node.trace with data := RawOrDecodedCall.Decoded func.name func.signature inputs }
      labels errors obytes hout ?_
    rcases hcond with h | h <;> simp [h]

/-- Witness for C4 (amended): the spec's scenario — a failed call whose raw
output the error ABI recognizes decodes to the quoted reason string. -/
theorem decode_function_revert_fallback_condition_witness :
    c4ResNode.trace.output =
      (match revertOnlyOps.decode_revert [8, 195, 121, 160] [] failedRevertNode.trace.status with
       | some decoded_error =>
         RawOrDecodedReturnData.Decoded (quoteString decoded_error)
       | none => RawOrDecodedReturnData.Raw [8, 195, 121, 160]) :=
  decode_function_revert_fallback_condition revertOnlyOps failedRevertNode
    fnA [] [] [] [] [8, 195, 121, 160] c4ResNode rfl rfl (Or.inr rfl) (by decide)

/-- CLAIM C6 counterexample: for a concrete self-destructed plain call, the
Parity projection produces a Suicide action yet `parity_result` still
produces a Call result derived from the call kind — the result is not
absent. -/
theorem parity_result_selfdestruct_produces_call_result :
    parity_action selfdestructCallNode =
      Action.Suicide { address := 2, refund_address := defaultAddress, balance := 0 } ∧
    parity_result selfdestructCallNode = Res.Call { gas_used := 3, output := [5] } ∧
    Res.Call { gas_used := 3, output := [5] } ≠ Res.None := by decide

/-- CLAIM C6 (amended): `parity_result` ignores the VM status: for every
self-destructed node it still produces a Call or Create result derived from
the node's call kind (gas used and raw output / code and address), never the
absent result. -/
theorem parity_result_selfdestruct_kind_result (node : CallTraceNode)
    (_h : node.trace.status = Return.SelfDestruct) :
    parity_result node ≠ Res.None ∧
    (parity_result node =
        Res.Call { gas_used := node.trace.gas_cost,
                   output := node.trace.output.to_raw } ∨
     parity_result node =
        Res.Create { gas_used := node.trace.gas_cost,
                     code := node.trace.output.to_raw,
                     address := node.trace.address }) := by
  unfold parity_result CallTraceNode.kind
  cases hk : node.trace.kind <;> simp [hk]

/-- Witness for C6 (amended): the concrete self-destructed call of the
counterexample gets a (non-absent) Call result. -/
theorem parity_result_selfdestruct_kind_result_witness :
    parity_result selfdestructCallNode ≠ Res.None ∧
    (parity_result selfdestructCallNode =
        Res.Call { gas_used := selfdestructCallNode.trace.gas_cost,
                   output := selfdestructCallNode.trace.output.to_raw } ∨
     parity_result selfdestructCallNode =
        Res.Create { gas_used := selfdestructCallNode.trace.gas_cost,
                     code := selfdestructCallNode.trace.output.to_raw,
                     address := selfdestructCallNode.trace.address }) :=
  parity_result_selfdestruct_kind_result selfdestructCallNode rfl

/-- CLAIM C7: raw call data shorter than a selector is not a failure —
`decode_function` terminates normally and sets the call data to Decoded with
the first candidate's name, its canonical signature, and an empty argument
list. -/
theorem decode_function_short_calldata_empty_args (ops : AbiOps)
    (node : CallTraceNode) (func : Function) (rest : List Function)
    (labels : Labels) (errors : Abi) (bytes : Bytes)
    (hdata : node.trace.data = RawOrDecodedCall.Raw bytes)
    (hlen : bytes.length < SELECTOR_LEN) :
    ∃ nodeRes, decode_function ops node (func :: rest) labels errors = some nodeRes ∧
      nodeRes.trace.data = RawOrDecodedCall.Decoded func.name func.signature [] := by
  have hci : decode_call_inputs ops func node.trace.address bytes labels errors = some [] := by
    unfold decode_call_inputs
    rw [if_neg (by omega)]
  refine ⟨{ node with trace :=
    (decode_output_update ops (func :: rest)
      { node.trace with data := RawOrDecodedCall.Decoded func.name func.signature [] }
      labels errors) }, ?_, ?_⟩
  · simp [decode_function, hdata, hci]
  · exact decode_output_update_data_eq ops (func :: rest)
      { node.trace with data := RawOrDecodedCall.Decoded func.name func.signature [] }
      labels errors

/-- Witness for C7: a two-byte calldata decodes to the first candidate's
name, signature, and an empty argument list. -/
theorem decode_function_short_calldata_empty_args_witness :
    shortCalldataNode.trace.data = RawOrDecodedCall.Raw [170, 187] ∧
    [170, 187].length < SELECTOR_LEN ∧
    (∃ nodeRes, decode_function failingOps shortCalldataNode [fnA] [] [] = some nodeRes ∧
      nodeRes.trace.data = RawOrDecodedCall.Decoded fnA.name fnA.signature []) :=
  ⟨rfl, by decide, decode_function_short_calldata_empty_args failingOps
    shortCalldataNode fnA [] [] [] [170, 187] rfl (by decide)⟩

/-- CLAIM C8: `decode_precompile` decodes the entire raw input (no selector
stripped) against the given function's input types; on success the argument
list is the labeled tokens, and on failure it is exactly the one-element list
holding the hex encoding of the raw input bytes. -/
theorem decode_precompile_no_selector_strip (ops : AbiOps)
    (node : CallTraceNode) (precompile_fn : Function) (labels : Labels)
    (bytes : Bytes)
    (hdata : node.trace.data = RawOrDecodedCall.Raw bytes) :
    (decode_precompile ops node precompile_fn labels).trace.data =
      RawOrDecodedCall.Decoded precompile_fn.name precompile_fn.signature
        (match ops.decode_input precompile_fn bytes with
         | some tokens => tokens.map (fun t => ops.label t labels)
         | none => [hexEncode bytes]) := by
  simp only [decode_precompile, hdata]
  cases ho : node.trace.output <;> simp [ho]

/-- Witness for C8: a two-byte undecodable precompile input falls back to
its hex rendering as a single-element argument list. -/
theorem decode_precompile_no_selector_strip_witness :
    (decode_precompile failingOps precompileInputNode fnA []).trace.data =
      RawOrDecodedCall.Decoded "transfer" "transfer(address,uint256)"
        [hexEncode [222, 173]] ∧
    hexEncode [222, 173] = "dead" :=
  ⟨decode_precompile_no_selector_strip failingOps precompileInputNode fnA []
    [222, 173] rfl, by decide⟩

/-- CLAIM C9: the Geth-style projection flips the success flag into
`failed`, exposes the raw output bytes as the return value, leaves the trace
gas unpopulated, and emits one struct log per recorded step in order, each
carrying the node's depth, the step's opcode mnemonic, program counter,
stack and memory snapshots, and the touched-storage keys mapped to their
resulting values, with per-step gas, gas cost, error, and refund counter
unpopulated. -/
theorem geth_trace_projection (node : CallTraceNode) (b : Bytes)
    (hout : node.trace.output = RawOrDecodedReturnData.Raw b) :
    (geth_trace node).failed = !node.trace.success ∧
    (geth_trace node).gas = 0 ∧
    (geth_trace node).return_value = b ∧
    (geth_trace node).struct_logs.length = node.trace.steps.length ∧
    (geth_trace node).struct_logs = node.trace.steps.map (fun step =>
      { depth := node.trace.depth,
        error := none,
        gas := 0,
        gas_cost := 0,
        memory := some step.memory,
        op := step.op,
        pc := step.pc,
        refund_counter := none,
        stack := some step.stack,
        storage := step.state.map (fun kv => (kv.1, kv.2.storage)) }) := by
  refine ⟨rfl, rfl, ?_, ?_, rfl⟩
  · simp [geth_trace, hout, RawOrDecodedReturnData.to_raw]
  · simp [geth_trace]

/-- Witness for C9: the projection of a concrete node with one recorded
step. -/
theorem geth_trace_projection_witness :
    (geth_trace stepNode).failed = !stepNode.trace.success ∧
    (geth_trace stepNode).gas = 0 ∧
    (geth_trace stepNode).return_value = [7] ∧
    (geth_trace stepNode).struct_logs.length = stepNode.trace.steps.length ∧
    (geth_trace stepNode).struct_logs = stepNode.trace.steps.map (fun step =>
      { depth := stepNode.trace.depth,
        error := none,
        gas := 0,
        gas_cost := 0,
        memory := some step.memory,
        op := step.op,
        pc := step.pc,
        refund_counter := none,
        stack := some step.stack,
        storage := step.state.map (fun kv => (kv.1, kv.2.storage)) }) :=
  geth_trace_projection stepNode [7] rfl

/-- CLAIM C10: `decode_function`, whenever it terminates normally, mutates
at most the trace's call-data and return-data fields: the node's parent,
children, index, logs and ordering, and every other `CallTrace` field are
unchanged. -/
theorem decode_function_frame (ops : AbiOps) (node : CallTraceNode)
    (funcs : List Function) (labels : Labels) (errors : Abi)
    (nodeRes : CallTraceNode)
    (hres : decode_function ops node funcs labels errors = some nodeRes) :
    nodeRes.parent = node.parent ∧ nodeRes.children = node.children ∧
    nodeRes.idx = node.idx ∧ nodeRes.logs = node.logs ∧
    nodeRes.ordering = node.ordering ∧
    nodeRes.trace.caller = node.trace.caller ∧
    nodeRes.trace.address = node.trace.address ∧
    nodeRes.trace.kind = node.trace.kind ∧
    nodeRes.trace.value = node.trace.value ∧
    nodeRes.trace.gas_cost = node.trace.gas_cost ∧
    nodeRes.trace.success = node.trace.success ∧
    nodeRes.trace.status = node.trace.status ∧
    nodeRes.trace.depth = node.trace.depth ∧
    nodeRes.trace.label = node.trace.label ∧
    nodeRes.trace.steps = node.trace.steps := by
  cases funcs with
  | nil => exact Option.noConfusion hres
  | cons func rest =>
    cases hdata : node.trace.data with
    | Decoded n s a =>
      simp only [decode_function, hdata] at hres
      obtain rfl := Option.some.inj hres
      exact ⟨rfl, rfl, rfl, rfl, rfl, rfl, rfl, rfl, rfl, rfl, rfl, rfl, rfl, rfl, rfl⟩
    | Raw bytes =>
      simp only [decode_function, hdata] at hres
      cases hci : decode_call_inputs ops func node.trace.address bytes labels errors with
      | none => rw [hci] at hres; exact Option.noConfusion hres
      | some inputs =>
        rw [hci] at hres
        obtain rfl := Option.some.inj hres
        obtain ⟨out, heq⟩ := decode_output_update_output_only ops (func :: rest)
          { node.trace with data := RawOrDecodedCall.Decoded func.name func.signature inputs }
          labels errors
        rw [heq]
        exact ⟨rfl, rfl, rfl, rfl, rfl, rfl, rfl, rfl, rfl, rfl, rfl, rfl, rfl, rfl, rfl⟩

/-- Witness for C10: a concrete decode changes the call data and nothing
else. -/
theorem decode_function_frame_witness :
    decode_function failingOps baseNode [fnA] [] [] = some frameResNode ∧
    (frameResNode.parent = baseNode.parent ∧
     frameResNode.children = baseNode.children ∧
     frameResNode.idx = baseNode.idx ∧ frameResNode.logs = baseNode.logs ∧
     frameResNode.ordering = baseNode.ordering ∧
     frameResNode.trace.caller = baseNode.trace.caller ∧
     frameResNode.trace.address = baseNode.trace.address ∧
     frameResNode.trace.kind = baseNode.trace.kind ∧
     frameResNode.trace.value = baseNode.trace.value ∧
     frameResNode.trace.gas_cost = baseNode.trace.gas_cost ∧
     frameResNode.trace.success = baseNode.trace.success ∧
     frameResNode.trace.status = baseNode.trace.status ∧
     frameResNode.trace.depth = baseNode.trace.depth ∧
     frameResNode.trace.label = baseNode.trace.label ∧
     frameResNode.trace.steps = baseNode.trace.steps) :=
  ⟨by decide, decode_function_frame failingOps baseNode [fnA] [] [] frameResNode (by decide)⟩

end FoundryTrace
